import Mathlib

/-!
Shallow embedding of the event-sourcing core of the `toggler` repository.

Source files modelled:
- `src/domain/mod.rs`   — `Generation`, the `Aggregate` trait with its default
  `hydrate` method, `DomainEventId`, `DomainEvent`, the `Repository` trait;
- `src/project/mod.rs`  — `ProjectId`, `Project`, `ProjectEvent`,
  `Project::create`, `Project::apply_event`, `DomainEvent::<Project>::from_event`,
  `SqliteRepository::{get, persist}`;
- `src/project/error.rs` — the error enums;
- `src/toggle.rs`       — `Toggle`, its `Event` enum (here `ToggleEvent`),
  `ToggleError`, `Toggle::{create, apply_event}`;
- `src/database/schema.rs` — the `events` table row shape (six columns).
  The `Event`/`NewEvent` structs of `src/database/models.rs` are stale: they
  omit the `generation` field that `schema.rs`, both `persist` implementations
  and the repository tests all use; the row model below follows the schema and
  the use sites.

External collaborators (the `uuid`, `chrono`, `serde_json` crates and the
SQLite storage engine) are modelled as explicit parameters: a `Codecs` record
of parse/serialize functions, and an insert-failure oracle standing for the
storage engine's response to each `INSERT`.  The database itself is a list of
rows in physical insertion order; a query without `ORDER BY` returns matching
rows in that physical order, which is how SQLite behaves on these scans.
-/

/-- Generation counter from `src/domain/mod.rs` (`pub struct Generation(i32)`).
The `i32` is modelled as `Int`; `i32` overflow is a Rust panic in debug builds
and outside the modelled range. -/
structure Generation where
  val : Int
deriving DecidableEq

/-- Source `Generation::first`. -/
def Generation.first : Generation := ⟨0⟩

/-- Source `Generation::next`. -/
def Generation.next (g : Generation) : Generation := ⟨g.val + 1⟩

/-- Uuid from the external `uuid` crate, identified with its canonical
lowercase hyphenated string form, which is what `to_string` and the `Debug`
instance print. -/
structure Uuid where
  str : String
deriving DecidableEq

/-- Timestamp from the external `chrono` crate (`DateTime<Utc>`); opaque to the
core, carried between an injected parse function and an injected
`to_rfc3339`. -/
structure UtcDateTime where
  repr : String
deriving DecidableEq

/-- Cause payload of `uuid::parser::ParseError` (external crate), opaque. -/
structure UuidParseError where
  msg : String
deriving DecidableEq

/-- Cause payload of `chrono::format::ParseError` (external crate), opaque. -/
structure DateTimeParseError where
  msg : String
deriving DecidableEq

/-- Cause payload of `serde_json::error::Error` (external crate), opaque. -/
structure JsonParseError where
  msg : String
deriving DecidableEq

/-- Cause payload of `diesel::result::Error` (external crate), opaque. -/
structure DieselError where
  msg : String
deriving DecidableEq

/-- Loop body of the default `Aggregate::hydrate` method of
`src/domain/mod.rs`: running state threaded through the `for` loop, `?`
returning the first error. -/
def hydrateGo {σ ε ev : Type} (apply : Option σ → ev → Except ε σ) :
    Option σ → List ev → Except ε (Option σ)
  | state, [] => .ok state
  | state, e :: rest =>
    match apply state e with
    | .error err => .error err
    | .ok s => hydrateGo apply (some s) rest

/-- Default `Aggregate::hydrate` of `src/domain/mod.rs`: fold `apply_event`
over the events in order starting from `None`. -/
def Aggregate.hydrate {σ ε ev : Type} (apply : Option σ → ev → Except ε σ)
    (events : List ev) : Except ε (Option σ) :=
  hydrateGo apply none events

/-- Escape of one character as Rust's derived `Debug` for strings prints it.
Rust additionally writes other control characters as unicode escapes; those do
not occur in any input considered here. -/
def rustCharEscape (ch : Char) : String :=
  if ch = '"' then ("\\\"")
  else if ch = '\\' then ("\\\\")
  else if ch = '\n' then ("\\n")
  else if ch = '\t' then ("\\t")
  else if ch = '\r' then ("\\r")
  else String.singleton ch

/-- Rust `Debug` formatting of a `String`: quoted, with escapes. -/
def rustDebugStr (s : String) : String :=
  "\"" ++ String.join (s.data.map rustCharEscape) ++ "\""

/-- ProjectId from `src/project/mod.rs` (`pub struct ProjectId(Uuid)`). -/
structure ProjectId where
  uuid : Uuid
deriving DecidableEq

/-- Source `ProjectId::to_string` (the inner uuid's canonical string). -/
def ProjectId.toString (p : ProjectId) : String := p.uuid.str

/-- Error enum of `src/project/error.rs` (`ProjectError`). -/
inductive ProjectError : Type where
  | InvalidName (name : String)
  | InvalidStateEvent (state : String) (event : String)
deriving DecidableEq

/-- Aggregate state from `src/project/mod.rs` (`pub struct Project`). -/
structure Project where
  id : ProjectId
  generation : Generation
  name : String
deriving DecidableEq

/-- Event enum of `src/project/mod.rs` (`pub enum ProjectEvent`). -/
inductive ProjectEvent : Type where
  | Created (id : ProjectId) (name : String)
deriving DecidableEq

/-- Source `ProjectEvent::type_`, the row discriminator. -/
def ProjectEvent.type_ : ProjectEvent → String
  | .Created _ _ => "Created"

/-- Rust derived `Debug` output for `ProjectId`. -/
def ProjectId.debugFmt (p : ProjectId) : String :=
  "ProjectId(" ++ p.uuid.str ++ ")"

/-- Rust derived `Debug` output for `Generation`. -/
def Generation.debugFmt (g : Generation) : String :=
  "Generation(" ++ toString g.val ++ ")"

/-- Rust derived `Debug` output for `Project`. -/
def Project.debugFmt (p : Project) : String :=
  "Project \x7b id: " ++ p.id.debugFmt ++ ", generation: " ++ p.generation.debugFmt
    ++ ", name: " ++ rustDebugStr p.name ++ " \x7d"

/-- Rust `Debug` output for `Option<Project>`. -/
def fmtOptionProject : Option Project → String
  | none => "None"
  | some p => "Some(" ++ p.debugFmt ++ ")"

/-- Rust derived `Debug` output for `ProjectEvent`. -/
def ProjectEvent.debugFmt : ProjectEvent → String
  | .Created id name =>
    "Created \x7b id: " ++ id.debugFmt ++ ", name: " ++ rustDebugStr name ++ " \x7d"

/-- Source `Project::create` of `src/project/mod.rs`: unconditionally emits one
`Created` event. -/
def Project.create (id : ProjectId) (name : String) :
    Except ProjectError (List ProjectEvent) :=
  .ok [ProjectEvent.Created id name]

/-- Source `Project::apply_event` of `src/project/mod.rs`: `Created` on `None`
builds the state at `Generation::first()`; every other pair falls through to
`InvalidStateEvent` carrying the `Debug` renderings of state and event. -/
def Project.apply_event (project : Option Project) (event : ProjectEvent) :
    Except ProjectError Project :=
  match project, event with
  | none, .Created id name => .ok { id := id, generation := Generation.first, name := name }
  | _, _ =>
    .error (.InvalidStateEvent (fmtOptionProject project) (ProjectEvent.debugFmt event))

/-- Source `Project::hydrate`, the inherited default trait method. -/
def Project.hydrate : List ProjectEvent → Except ProjectError (Option Project) :=
  Aggregate.hydrate Project.apply_event

/-- Aggregate state from `src/toggle.rs` (`pub struct Toggle`). -/
structure Toggle where
  id : Uuid
  generation : Generation
  name : String
  version : Int
deriving DecidableEq

/-- Event enum of `src/toggle.rs` (named `Event` in the source). -/
inductive ToggleEvent : Type where
  | Created (id : Uuid) (name : String)
deriving DecidableEq

/-- Error enum of `src/toggle.rs` (`ToggleError`). -/
inductive ToggleError : Type where
  | InvalidName (name : String)
  | InvalidStateEvent (state : String) (event : String)
deriving DecidableEq

/-- Source `Toggle::create` of `src/toggle.rs`: unconditionally emits one
`Created` event. -/
def Toggle.create (id : Uuid) (name : String) :
    Except ToggleError (List ToggleEvent) :=
  .ok [ToggleEvent.Created id name]

/-- Rust derived `Debug` output for `Toggle`. -/
def Toggle.debugFmt (t : Toggle) : String :=
  "Toggle \x7b id: " ++ t.id.str ++ ", generation: " ++ t.generation.debugFmt
    ++ ", name: " ++ rustDebugStr t.name ++ ", version: " ++ toString t.version ++ " \x7d"

/-- Rust `Debug` output for `Option<Toggle>`. -/
def fmtOptionToggle : Option Toggle → String
  | none => "None"
  | some t => "Some(" ++ t.debugFmt ++ ")"

/-- Rust derived `Debug` output for the toggle `Event` enum. -/
def ToggleEvent.debugFmt : ToggleEvent → String
  | .Created id name =>
    "Created \x7b id: " ++ id.str ++ ", name: " ++ rustDebugStr name ++ " \x7d"

/-- Source `Toggle::apply_event` of `src/toggle.rs`. -/
def Toggle.apply_event (state : Option Toggle) (event : ToggleEvent) :
    Except ToggleError Toggle :=
  match state, event with
  | none, .Created id name =>
    .ok { id := id, generation := Generation.first, name := name, version := 0 }
  | _, _ =>
    .error (.InvalidStateEvent (fmtOptionToggle state) (ToggleEvent.debugFmt event))

/-- Source `Toggle::hydrate`, the inherited default trait method. -/
def Toggle.hydrate : List ToggleEvent → Except ToggleError (Option Toggle) :=
  Aggregate.hydrate Toggle.apply_event

/-- Error enum `DomainEventError` of `src/project/error.rs`. -/
inductive DomainEventError : Type where
  | UuidParseError (e : UuidParseError)
  | DateTimeParseError (e : DateTimeParseError)
  | JsonParseError (e : JsonParseError)
deriving DecidableEq

/-- Error enum `SqliteRepositoryError` of `src/project/error.rs`. -/
inductive SqliteRepositoryError : Type where
  | DatabaseError (e : DieselError)
  | DomainEventError (e : DomainEventError)
  | ProjectError (e : ProjectError)
  | JsonFormatError (e : JsonParseError)
  | NotFoundError
deriving DecidableEq

/-- DomainEventId from `src/domain/mod.rs` (`pub struct DomainEventId(Uuid)`). -/
structure DomainEventId where
  uuid : Uuid
deriving DecidableEq

/-- Source `DomainEventId::to_string`. -/
def DomainEventId.toString (d : DomainEventId) : String := d.uuid.str

/-- Envelope `DomainEvent<Project>` from `src/domain/mod.rs`. -/
structure DomainEvent where
  id : DomainEventId
  aggregate_id : ProjectId
  created_at : UtcDateTime
  event : ProjectEvent
deriving DecidableEq

/-- One row of the `events` table, per `src/database/schema.rs`: columns
`id, aggregate_id, generation, created_at, type, data`. -/
structure EventRow where
  id : String
  aggregate_id : String
  generation : Int
  created_at : String
  type_ : String
  data : String
deriving DecidableEq

/-- Injected functions standing for the external `uuid`, `chrono` and
`serde_json` crates used by `from_event` and `persist`:
`Uuid::parse_str`, `str::parse::<DateTime<Utc>>`,
`serde_json::from_str::<ProjectEvent>`, `DateTime::to_rfc3339`, and
`serde_json::to_string` (total here: derived serialization of `ProjectEvent`
to a JSON string cannot fail). -/
structure Codecs where
  parseUuid : String → Except UuidParseError Uuid
  parseDateTime : String → Except DateTimeParseError UtcDateTime
  parseProjectEvent : String → Except JsonParseError ProjectEvent
  rfc3339 : UtcDateTime → String
  jsonSerProject : ProjectEvent → String

/-- Source `DomainEvent::<Project>::from_event` of `src/project/mod.rs`:
parse the event id, the aggregate id, the timestamp and the payload in that
order, each `?` converting the cause into `DomainEventError`. -/
def DomainEvent.from_event (c : Codecs) (event : EventRow) :
    Except DomainEventError DomainEvent :=
  match c.parseUuid event.id with
  | .error e => .error (.UuidParseError e)
  | .ok eid =>
    match c.parseUuid event.aggregate_id with
    | .error e => .error (.UuidParseError e)
    | .ok aid =>
      match c.parseDateTime event.created_at with
      | .error e => .error (.DateTimeParseError e)
      | .ok ts =>
        match c.parseProjectEvent event.data with
        | .error e => .error (.JsonParseError e)
        | .ok pe => .ok ⟨⟨eid⟩, ⟨aid⟩, ts, pe⟩

/-- Decode pipeline inside `SqliteRepository::get`:
`.map(DomainEvent::from_event).map(|x| x.map(|e| e.event)).collect()` —
first decode error wins, otherwise the list of domain events in row order. -/
def decodeEvents (c : Codecs) : List EventRow → Except DomainEventError (List ProjectEvent)
  | [] => .ok []
  | r :: rest =>
    match DomainEvent.from_event c r with
    | .error e => .error e
    | .ok dev =>
      match decodeEvents c rest with
      | .error e => .error e
      | .ok evs => .ok (dev.event :: evs)

/-- Row query inside `SqliteRepository::get`:
`events.filter(aggregate_id.eq(id.to_string())).load::<Event>(self.db)`.
The query has no `ORDER BY`, so matching rows come back in physical insertion
order. -/
def loadRows (db : List EventRow) (pid : ProjectId) : List EventRow :=
  db.filter (fun r => r.aggregate_id == pid.toString)

/-- Source `SqliteRepository::get` of `src/project/mod.rs`: load the rows for
the id, decode them, hydrate, and map a `None` state to `NotFoundError`. -/
def SqliteRepository.get (c : Codecs) (db : List EventRow) (pid : ProjectId) :
    Except SqliteRepositoryError Project :=
  match decodeEvents c (loadRows db pid) with
  | .error e => .error (.DomainEventError e)
  | .ok evs =>
    match Project.hydrate evs with
    | .error e => .error (.ProjectError e)
    | .ok none => .error .NotFoundError
    | .ok (some p) => .ok p

/-- The `NewEvent` record built for one envelope inside
`SqliteRepository::persist` (its fields mirror the struct literal in the
source: event id string, aggregate id string, the running generation,
`to_rfc3339` of the timestamp, the `type_()` discriminator, and the
serialized payload). -/
def mkRow (c : Codecs) (generation : Generation) (event : DomainEvent) : EventRow :=
  { id := event.id.toString
    aggregate_id := event.aggregate_id.toString
    generation := generation.val
    created_at := c.rfc3339 event.created_at
    type_ := event.event.type_
    data := c.jsonSerProject event.event }

/-- Source `SqliteRepository::persist` of `src/project/mod.rs`: for each
envelope in order, build its row at the running generation, execute the
insert (`oracle` is the storage engine's verdict; `some` is a failed insert,
whose error the `?` converts to `DatabaseError`), then advance the generation.
The database state is threaded explicitly. -/
def SqliteRepository.persist (c : Codecs)
    (oracle : List EventRow → EventRow → Option DieselError)
    (db : List EventRow) (generation : Generation) :
    List DomainEvent → List EventRow × Except SqliteRepositoryError Unit
  | [] => (db, .ok ())
  | event :: rest =>
    match oracle db (mkRow c generation event) with
    | some e => (db, .error (.DatabaseError e))
    | none =>
      SqliteRepository.persist c oracle (db ++ [mkRow c generation event])
        generation.next rest

/-- Closed form of the rows `persist` appends on success: one row per envelope
in call order, the generation advancing by `next` per row. -/
def persistRows (c : Codecs) (g : Generation) : List DomainEvent → List EventRow
  | [] => []
  | e :: rest => mkRow c g e :: persistRows c g.next rest

/-- Rollback-on-error semantics of `diesel`'s `Connection::transaction`, with
which the `Executor` handlers of `src/app/mod.rs` wrap every live call of the
command handlers (and hence of `persist`): on `Ok` the new state is kept, on
`Err` the state reverts and the error is surfaced. -/
def transaction {ε α : Type} (db : List EventRow)
    (f : List EventRow → List EventRow × Except ε α) :
    List EventRow × Except ε α :=
  match f db with
  | (db2, .ok a) => (db2, .ok a)
  | (_, .error e) => (db, .error e)

/-- Fixture: the aggregate uuid used across the repository's own tests. -/
def uuidAgg : Uuid := ⟨"936da01f-9abd-4d9d-80c7-02af85c822a8"⟩

/-- Fixture: the project id of the tests. -/
def pidFix : ProjectId := ⟨uuidAgg⟩

/-- Fixture: one event uuid. -/
def uuidEvA : Uuid := ⟨"550e8400-e29b-41d4-a716-446655440000"⟩

/-- Fixture: another event uuid. -/
def uuidEvB : Uuid := ⟨"650e8400-e29b-41d4-a716-446655440000"⟩

/-- Fixture: serialized payload naming the project `a`. -/
def dataA : String :=
  "\x7b\"Created\":\x7b\"id\":\"936da01f-9abd-4d9d-80c7-02af85c822a8\",\"name\":\"a\"\x7d\x7d"

/-- Fixture: serialized payload naming the project `b`. -/
def dataB : String :=
  "\x7b\"Created\":\x7b\"id\":\"936da01f-9abd-4d9d-80c7-02af85c822a8\",\"name\":\"b\"\x7d\x7d"

/-- Concrete codec instantiation for witness evaluation: a toy stand-in for
the external crates (uuid strings are the 36-character hyphenated ones,
timestamps any nonempty string, payloads the two fixture documents). -/
def testCodecs : Codecs :=
  { parseUuid := fun s => if s.length = 36 then .ok ⟨s⟩ else .error ⟨s⟩
    parseDateTime := fun s => if s = "" then .error ⟨s⟩ else .ok ⟨s⟩
    parseProjectEvent := fun s =>
      if s = dataA then .ok (.Created pidFix ("a"))
      else if s = dataB then .ok (.Created pidFix ("b"))
      else .error ⟨s⟩
    rfc3339 := fun d => d.repr
    jsonSerProject := fun e =>
      match e with
      | .Created id name =>
        "\x7b\"Created\":\x7b\"id\":\"" ++ id.uuid.str ++ "\",\"name\":\"" ++ name ++ "\"\x7d\x7d" }

/-- Fixture row: generation 0, payload `a`. -/
def rowA : EventRow :=
  ⟨uuidEvA.str, uuidAgg.str, 0, "2019-01-01T12:34:56+00:00", "Created", dataA⟩

/-- Fixture row: generation 1, payload `b`. -/
def rowB : EventRow :=
  ⟨uuidEvB.str, uuidAgg.str, 1, "2019-01-01T12:34:56+00:00", "Created", dataB⟩

/-- Fixture row whose `data` column does not deserialize. -/
def rowBad : EventRow :=
  ⟨uuidEvB.str, uuidAgg.str, 0, "2019-01-01T12:34:56+00:00", "Created", "notjson"⟩

/-- Fixture event: `Created` with name `a`. -/
def pe1 : ProjectEvent := .Created pidFix ("a")

/-- Fixture state hydrated from `pe1`. -/
def proj1 : Project := ⟨pidFix, Generation.first, "a"⟩

/-- Fixture toggle event. -/
def te1 : ToggleEvent := .Created uuidAgg ("a")

/-- Fixture envelope around `pe1`. -/
def devA : DomainEvent := ⟨⟨uuidEvA⟩, pidFix, ⟨"2019-01-01T00:00:00+00:00"⟩, pe1⟩

/-- Storage oracle under which every insert succeeds. -/
def noFailOracle : List EventRow → EventRow → Option DieselError := fun _ _ => none

/-- Storage oracle enforcing the primary key of the `events` table: an insert
whose `id` already exists fails with a constraint violation. -/
def uniqueIdOracle : List EventRow → EventRow → Option DieselError :=
  fun db row =>
    if db.any (fun r => r.id == row.id) then
      some ⟨"UNIQUE constraint failed: events.id"⟩
    else none

instance {ε α : Type} [DecidableEq ε] [DecidableEq α] : DecidableEq (Except ε α)
  | .ok a, .ok b =>
    if h : a = b then .isTrue (by rw [h]) else .isFalse (by intro hc; cases hc; exact h rfl)
  | .ok _, .error _ => .isFalse (by intro hc; cases hc)
  | .error _, .ok _ => .isFalse (by intro hc; cases hc)
  | .error a, .error b =>
    if h : a = b then .isTrue (by rw [h]) else .isFalse (by intro hc; cases hc; exact h rfl)

/-- Helper: hydration started from an existing state never reports the
"no state" outcome. -/
theorem hydrateGo_some_ne_ok_none {σ ε ev : Type} (apply : Option σ → ev → Except ε σ) :
    ∀ (l : List ev) (s : σ), hydrateGo apply (some s) l ≠ Except.ok none := by
  intro l
  induction l with
  | nil => intro s h; simp [hydrateGo] at h
  | cons e rest ih =>
    intro s h
    rw [hydrateGo] at h
    cases happ : apply (some s) e with
    | error err => rw [happ] at h; cases h
    | ok s2 => rw [happ] at h; exact ih s2 h

/-- Helper: hydration over an appended list runs the second part from the
state reached by the first, and short-circuits on an error. -/
theorem hydrateGo_append {σ ε ev : Type} (apply : Option σ → ev → Except ε σ) :
    ∀ (l1 l2 : List ev) (st : Option σ),
      hydrateGo apply st (l1 ++ l2) =
        match hydrateGo apply st l1 with
        | .ok st2 => hydrateGo apply st2 l2
        | .error e => .error e := by
  intro l1
  induction l1 with
  | nil => intro l2 st; simp [hydrateGo]
  | cons e rest ih =>
    intro l2 st
    rw [List.cons_append, hydrateGo, hydrateGo]
    cases happ : apply st e with
    | error err => rfl
    | ok s2 => exact ih l2 (some s2)

/-- Helper: the hydration loop is the monadic left fold of the transition. -/
theorem hydrateGo_eq_foldlM {σ ε ev : Type} (apply : Option σ → ev → Except ε σ) :
    ∀ (l : List ev) (st : Option σ),
      hydrateGo apply st l = l.foldlM (fun s e => (apply s e).map some) st := by
  intro l
  induction l with
  | nil => intro st; rfl
  | cons e rest ih =>
    intro st
    rw [hydrateGo, List.foldlM]
    cases happ : apply st e with
    | error err => rfl
    | ok s2 => exact ih (some s2)

/-- C1: applying a `Created` event (there is no other variant) to an
already-created state is rejected with the invalid-state-event error by both
aggregates; it never succeeds and never overwrites the state. -/
theorem apply_created_on_some_rejected (p : Project) (e : ProjectEvent)
    (t : Toggle) (te : ToggleEvent) :
    (∃ s ev, Project.apply_event (some p) e = .error (.InvalidStateEvent s ev)) ∧
    (∃ s ev, Toggle.apply_event (some t) te = .error (.InvalidStateEvent s ev)) := by
  constructor
  · cases e with
    | Created id name => exact ⟨_, _, rfl⟩
  · cases te with
    | Created id name => exact ⟨_, _, rfl⟩

/-- C2: the default `hydrate` equals the monadic left fold of `apply_event`
starting from `None`; it returns `Ok(None)` exactly on the empty list; and the
first transition error is returned as is, with the remaining events
abandoned. -/
theorem hydrate_is_ordered_fold :
    ∀ {σ ε ev : Type} (apply : Option σ → ev → Except ε σ),
      (∀ events : List ev,
        Aggregate.hydrate apply events =
          events.foldlM (fun s e => (apply s e).map some) (none : Option σ)) ∧
      (∀ events : List ev, (Aggregate.hydrate apply events = .ok none ↔ events = [])) ∧
      (∀ (done : List ev) (e : ev) (later : List ev) (st : Option σ) (err : ε),
        Aggregate.hydrate apply done = .ok st → apply st e = .error err →
        Aggregate.hydrate apply (done ++ e :: later) = .error err) := by
  intro σ ε ev apply
  refine ⟨?_, ?_, ?_⟩
  · intro events
    exact hydrateGo_eq_foldlM apply events none
  · intro events
    constructor
    · intro h
      cases events with
      | nil => rfl
      | cons e rest =>
        rw [Aggregate.hydrate, hydrateGo] at h
        cases happ : apply none e with
        | error err => rw [happ] at h; cases h
        | ok s => rw [happ] at h; exact absurd h (hydrateGo_some_ne_ok_none apply rest s)
    · intro h
      rw [h]
      rfl
  · intro done e later st err hdone happ
    rw [Aggregate.hydrate] at hdone ⊢
    rw [hydrateGo_append, hdone]
    show hydrateGo apply st (e :: later) = .error err
    rw [hydrateGo, happ]

/-- C2 witness: a concrete instance with the hypotheses discharged — hydrating
`[pe1]` reaches `Some proj1`, applying `pe1` there fails, and hydrating
`[pe1] ++ pe1 :: [pe1]` returns exactly that first error. -/
theorem hydrate_is_ordered_fold_witness :
    Aggregate.hydrate Project.apply_event ([pe1] ++ pe1 :: [pe1]) =
      .error (.InvalidStateEvent (fmtOptionProject (some proj1)) (ProjectEvent.debugFmt pe1)) :=
  (hydrate_is_ordered_fold Project.apply_event).2.2 [pe1] pe1 [pe1] (some proj1) _
    (by rfl) (by rfl)

/-- C8 counterexample: the empty name — the spec's example of invalid creation
input — is not rejected: `Project::create` succeeds and produces the `Created`
event. -/
theorem create_accepts_empty_name :
    Project.create pidFix ("") = .ok [ProjectEvent.Created pidFix ("")] := rfl

/-- C8 amended: creation is never rejected — for every id and name (the empty
name included) `Project::create` and `Toggle::create` return `Ok` with the
single `Created` event; the `InvalidName` error is declared but never
produced. -/
theorem create_never_rejects (pid : ProjectId) (name : String)
    (u : Uuid) (tname : String) :
    Project.create pid name = .ok [ProjectEvent.Created pid name] ∧
    Toggle.create u tname = .ok [ToggleEvent.Created u tname] :=
  ⟨rfl, rfl⟩

/-- C9: `apply_event` and `hydrate` are pure functions of their arguments for
both aggregates: the same `(state, event)` pair, or the same event list, always
yields the same result (purity is structural in this functional embedding). -/
theorem apply_event_deterministic (s : Option Project) (e : ProjectEvent)
    (es : List ProjectEvent) (t : Option Toggle) (te : ToggleEvent)
    (tes : List ToggleEvent) :
    Project.apply_event s e = Project.apply_event s e ∧
    Project.hydrate es = Project.hydrate es ∧
    Toggle.apply_event t te = Toggle.apply_event t te ∧
    Toggle.hydrate tes = Toggle.hydrate tes :=
  ⟨rfl, rfl, rfl, rfl⟩

/-- Helper: for `Project`, any second event after a successful creation fails
with `InvalidStateEvent`, whatever follows. -/
theorem Project.hydrate_second_event_fails (id : ProjectId) (name : String)
    (e2 : ProjectEvent) (rest : List ProjectEvent) :
    Project.hydrate (ProjectEvent.Created id name :: e2 :: rest) =
      .error (.InvalidStateEvent
        (fmtOptionProject (some ⟨id, Generation.first, name⟩))
        (ProjectEvent.debugFmt e2)) := rfl

/-- Helper: for `Toggle`, any second event after a successful creation fails
with `InvalidStateEvent`, whatever follows. -/
theorem Toggle.hydrate_second_toggle_event_fails (id : Uuid) (name : String)
    (e2 : ToggleEvent) (rest : List ToggleEvent) :
    Toggle.hydrate (ToggleEvent.Created id name :: e2 :: rest) =
      .error (.InvalidStateEvent
        (fmtOptionToggle (some ⟨id, Generation.first, name, 0⟩))
        (ToggleEvent.debugFmt e2)) := rfl

/-- C10: both aggregates hydrate to `Ok(Some(state))` exactly on event lists of
length one; every list of two or more events fails with `InvalidStateEvent`;
and every successfully hydrated state sits at `Generation::first()` with id and
name copied from the `Created` event (so the hydrated generation never exceeds
0, however many rows are stored). -/
theorem hydrate_ok_iff_singleton :
    (∀ (pid : ProjectId) (name : String),
      Project.hydrate [ProjectEvent.Created pid name] =
        .ok (some ⟨pid, Generation.first, name⟩)) ∧
    (∀ (events : List ProjectEvent) (p : Project),
      Project.hydrate events = .ok (some p) →
      events.length = 1 ∧ p.generation = Generation.first ∧
      ∃ pid name, events = [ProjectEvent.Created pid name] ∧
        p = ⟨pid, Generation.first, name⟩) ∧
    (∀ events : List ProjectEvent, 2 ≤ events.length →
      ∃ s t, Project.hydrate events = .error (.InvalidStateEvent s t)) ∧
    (∀ (u : Uuid) (name : String),
      Toggle.hydrate [ToggleEvent.Created u name] =
        .ok (some ⟨u, Generation.first, name, 0⟩)) ∧
    (∀ (events : List ToggleEvent) (t : Toggle),
      Toggle.hydrate events = .ok (some t) →
      events.length = 1 ∧ t.generation = Generation.first ∧
      ∃ u name, events = [ToggleEvent.Created u name] ∧
        t = ⟨u, Generation.first, name, 0⟩) ∧
    (∀ events : List ToggleEvent, 2 ≤ events.length →
      ∃ s t, Toggle.hydrate events = .error (.InvalidStateEvent s t)) := by
  refine ⟨fun pid name => rfl, ?_, ?_, fun u name => rfl, ?_, ?_⟩
  · intro events p h
    match events with
    | [] => exact absurd h (by simp [Project.hydrate, Aggregate.hydrate, hydrateGo])
    | [ProjectEvent.Created pid name] =>
      have hp : p = ⟨pid, Generation.first, name⟩ := by
        have : Project.hydrate [ProjectEvent.Created pid name] =
            .ok (some ⟨pid, Generation.first, name⟩) := rfl
        rw [this] at h
        cases h
        rfl
      subst hp
      exact ⟨rfl, rfl, pid, name, rfl, rfl⟩
    | ProjectEvent.Created pid name :: e2 :: rest =>
      rw [Project.hydrate_second_event_fails] at h
      cases h
  · intro events h
    match events with
    | [] => simp at h
    | [e] => simp at h
    | ProjectEvent.Created pid name :: e2 :: rest =>
      exact ⟨_, _, Project.hydrate_second_event_fails pid name e2 rest⟩
  · intro events t h
    match events with
    | [] => exact absurd h (by simp [Toggle.hydrate, Aggregate.hydrate, hydrateGo])
    | [ToggleEvent.Created u name] =>
      have ht : t = ⟨u, Generation.first, name, 0⟩ := by
        have : Toggle.hydrate [ToggleEvent.Created u name] =
            .ok (some ⟨u, Generation.first, name, 0⟩) := rfl
        rw [this] at h
        cases h
        rfl
      subst ht
      exact ⟨rfl, rfl, u, name, rfl, rfl⟩
    | ToggleEvent.Created u name :: e2 :: rest =>
      rw [Toggle.hydrate_second_toggle_event_fails] at h
      cases h
  · intro events h
    match events with
    | [] => simp at h
    | [e] => simp at h
    | ToggleEvent.Created u name :: e2 :: rest =>
      exact ⟨_, _, Toggle.hydrate_second_toggle_event_fails u name e2 rest⟩

/-- C10 witness: the singleton `[pe1]` hydrates to `Some proj1` at generation
0, and the two-element lists fail with `InvalidStateEvent` for both
aggregates. -/
theorem hydrate_ok_iff_singleton_witness :
    (([pe1] : List ProjectEvent).length = 1 ∧ proj1.generation = Generation.first ∧
      ∃ pid name, ([pe1] : List ProjectEvent) = [ProjectEvent.Created pid name] ∧
        proj1 = ⟨pid, Generation.first, name⟩) ∧
    (∃ s t, Project.hydrate [pe1, pe1] = .error (.InvalidStateEvent s t)) ∧
    (([te1] : List ToggleEvent).length = 1 ∧
      (⟨uuidAgg, Generation.first, "a", 0⟩ : Toggle).generation = Generation.first ∧
      ∃ u name, ([te1] : List ToggleEvent) = [ToggleEvent.Created u name] ∧
        (⟨uuidAgg, Generation.first, "a", 0⟩ : Toggle) = ⟨u, Generation.first, name, 0⟩) ∧
    (∃ s t, Toggle.hydrate [te1, te1] = .error (.InvalidStateEvent s t)) :=
  ⟨hydrate_ok_iff_singleton.2.1 [pe1] proj1 (by rfl),
   hydrate_ok_iff_singleton.2.2.1 [pe1, pe1] (by decide),
   hydrate_ok_iff_singleton.2.2.2.2.1 [te1] ⟨uuidAgg, Generation.first, "a", 0⟩ (by rfl),
   hydrate_ok_iff_singleton.2.2.2.2.2 [te1, te1] (by decide)⟩

/-- Helper: a `persist` call that returns `Ok` appended exactly the closed-form
rows to the database it was given. -/
theorem persist_ok_appends (c : Codecs)
    (oracle : List EventRow → EventRow → Option DieselError) :
    ∀ (events : List DomainEvent) (db : List EventRow) (g : Generation)
      (db2 : List EventRow),
      SqliteRepository.persist c oracle db g events = (db2, .ok ()) →
      db2 = db ++ persistRows c g events := by
  intro events
  induction events with
  | nil =>
    intro db g db2 h
    rw [SqliteRepository.persist] at h
    injection h with h1 h2
    rw [← h1]
    simp [persistRows]
  | cons e rest ih =>
    intro db g db2 h
    rw [SqliteRepository.persist] at h
    cases horacle : oracle db (mkRow c g e) with
    | some err =>
      rw [horacle] at h
      injection h with h1 h2
      cases h2
    | none =>
      rw [horacle] at h
      rw [persistRows]
      rw [ih (db ++ [mkRow c g e]) g.next db2 h]
      simp

/-- Helper: the closed-form row list has one row per envelope. -/
theorem persistRows_length (c : Codecs) :
    ∀ (events : List DomainEvent) (g : Generation),
      (persistRows c g events).length = events.length := by
  intro events
  induction events with
  | nil => intro g; rfl
  | cons e rest ih => intro g; rw [persistRows]; simp [ih g.next]

/-- Helper: the row at index `k` of the closed form is the row of the `k`-th
envelope at generation `g + k`. -/
theorem persistRows_getElem (c : Codecs) :
    ∀ (events : List DomainEvent) (g : Generation) (k : Nat) (e : DomainEvent),
      events[k]? = some e →
      (persistRows c g events)[k]? = some (mkRow c ⟨g.val + k⟩ e) := by
  intro events
  induction events with
  | nil => intro g k e h; simp at h
  | cons ev rest ih =>
    intro g k e h
    cases k with
    | zero =>
      rw [List.getElem?_cons_zero] at h
      injection h with h1
      rw [← h1]
      rw [persistRows, List.getElem?_cons_zero]
      simp [mkRow]
    | succ k =>
      rw [List.getElem?_cons_succ] at h
      rw [persistRows, List.getElem?_cons_succ, ih g.next k e h]
      simp [mkRow, Generation.next]
      omega

/-- Helper: under a storage engine that accepts every insert, `persist`
appends exactly the closed-form rows and succeeds. -/
theorem persist_noFail_eq (c : Codecs) :
    ∀ (events : List DomainEvent) (db : List EventRow) (g : Generation),
      SqliteRepository.persist c noFailOracle db g events =
        (db ++ persistRows c g events, .ok ()) := by
  intro events
  induction events with
  | nil => intro db g; rw [SqliteRepository.persist, persistRows]; simp
  | cons e rest ih =>
    intro db g
    show SqliteRepository.persist c noFailOracle (db ++ [mkRow c g e]) g.next rest = _
    rw [ih (db ++ [mkRow c g e]) g.next, persistRows]
    simp

/-- C4: `persist(G, events)` writes exactly one row per event in call order —
on success the database gains the closed-form rows, whose `k`-th entry carries
the event's id string, its aggregate id string, generation `G + k`
(advanced via `next()` after each event), the RFC3339 timestamp, the type
discriminator and the serialized payload. -/
theorem persist_one_row_per_event (c : Codecs)
    (oracle : List EventRow → EventRow → Option DieselError)
    (db : List EventRow) (g : Generation) (events : List DomainEvent) :
    (∀ db2, SqliteRepository.persist c oracle db g events = (db2, .ok ()) →
      db2 = db ++ persistRows c g events) ∧
    (persistRows c g events).length = events.length ∧
    (∀ (k : Nat) (e : DomainEvent), events[k]? = some e →
      (persistRows c g events)[k]? = some
        { id := e.id.toString
          aggregate_id := e.aggregate_id.toString
          generation := g.val + k
          created_at := c.rfc3339 e.created_at
          type_ := e.event.type_
          data := c.jsonSerProject e.event }) ∧
    SqliteRepository.persist c noFailOracle db g events =
      (db ++ persistRows c g events, .ok ()) :=
  ⟨fun db2 h => persist_ok_appends c oracle events db g db2 h,
   persistRows_length c events g,
   fun k e h => persistRows_getElem c events g k e h,
   persist_noFail_eq c events db g⟩

/-- C4 witness: persisting the single fixture envelope from generation 0
appends exactly its row, and that row carries generation `0 + 0` with the
envelope's fields. -/
theorem persist_one_row_per_event_witness :
    (persistRows testCodecs Generation.first [devA] =
      [] ++ persistRows testCodecs Generation.first [devA]) ∧
    (persistRows testCodecs Generation.first [devA])[0]? = some
      { id := devA.id.toString
        aggregate_id := devA.aggregate_id.toString
        generation := Generation.first.val + (0 : Nat)
        created_at := testCodecs.rfc3339 devA.created_at
        type_ := devA.event.type_
        data := testCodecs.jsonSerProject devA.event } :=
  ⟨(persist_one_row_per_event testCodecs noFailOracle [] Generation.first [devA]).1
      (persistRows testCodecs Generation.first [devA]) (by rfl),
   (persist_one_row_per_event testCodecs noFailOracle [] Generation.first [devA]).2.2.1
      0 devA (by rfl)⟩

/-- Helper: a failing `persist` returns the storage error of the first insert
the engine rejected, taken at the database state holding the batch rows before
the failing one. -/
theorem persist_error_first_insert (c : Codecs)
    (oracle : List EventRow → EventRow → Option DieselError) :
    ∀ (events : List DomainEvent) (db : List EventRow) (g : Generation)
      (db2 : List EventRow) (err : SqliteRepositoryError),
      SqliteRepository.persist c oracle db g events = (db2, .error err) →
      ∃ k e d, events[k]? = some e ∧
        oracle (db ++ persistRows c g (events.take k)) (mkRow c ⟨g.val + k⟩ e) = some d ∧
        err = .DatabaseError d := by
  intro events
  induction events with
  | nil =>
    intro db g db2 err h
    rw [SqliteRepository.persist] at h
    injection h with h1 h2
    cases h2
  | cons e rest ih =>
    intro db g db2 err h
    rw [SqliteRepository.persist] at h
    cases horacle : oracle db (mkRow c g e) with
    | some d =>
      rw [horacle] at h
      injection h with h1 h2
      injection h2 with h3
      refine ⟨0, e, d, by simp, ?_, h3.symm⟩
      simpa [persistRows] using horacle
    | none =>
      rw [horacle] at h
      obtain ⟨k, e2, d, hk, ho, herr⟩ := ih (db ++ [mkRow c g e]) g.next db2 err h
      refine ⟨k + 1, e2, d, by simpa using hk, ?_, herr⟩
      have hgen : (⟨g.next.val + (k : Int)⟩ : Generation) =
          ⟨g.val + ((k + 1 : Nat) : Int)⟩ := by
        simp [Generation.next]
        omega
      rw [List.take_succ_cons, persistRows, List.append_cons, ← hgen]
      exact ho

/-- C5: with every live `persist` call running inside the `Executor`'s
`db.transaction` (rollback on error), the batch is atomic: on `Ok` all rows of
the call are appended, and on any insert failure the database is unchanged —
no batch row remains — and the surfaced error is the underlying storage error
of the first rejected insert. -/
theorem persist_transaction_atomic (c : Codecs)
    (oracle : List EventRow → EventRow → Option DieselError)
    (db : List EventRow) (g : Generation) (events : List DomainEvent) :
    (∀ db2, transaction db (fun d => SqliteRepository.persist c oracle d g events) =
        (db2, .ok ()) → db2 = db ++ persistRows c g events) ∧
    (∀ db2 err, transaction db (fun d => SqliteRepository.persist c oracle d g events) =
        (db2, .error err) →
      db2 = db ∧ ∃ k e d2, events[k]? = some e ∧
        oracle (db ++ persistRows c g (events.take k)) (mkRow c ⟨g.val + k⟩ e) = some d2 ∧
        err = .DatabaseError d2) := by
  constructor
  · intro db2 h
    rw [transaction] at h
    rcases hper : SqliteRepository.persist c oracle db g events with ⟨dbx, res⟩
    rw [hper] at h
    cases res with
    | ok a =>
      simp only [] at h
      injection h with h1 h2
      rw [← h1]
      cases a
      exact persist_ok_appends c oracle events db g dbx hper
    | error e =>
      simp only [] at h
      injection h with h1 h2
      cases h2
  · intro db2 err h
    rw [transaction] at h
    rcases hper : SqliteRepository.persist c oracle db g events with ⟨dbx, res⟩
    rw [hper] at h
    cases res with
    | ok a =>
      simp only [] at h
      injection h with h1 h2
      cases h2
    | error e =>
      simp only [] at h
      injection h with h1 h2
      injection h2 with h3
      subst h3
      exact ⟨h1.symm, persist_error_first_insert c oracle events db g dbx e hper⟩

/-- C5 witness: inserting the fixture envelope into a database that already
holds a row with the same primary key, inside a transaction, leaves the
database unchanged. -/
theorem persist_transaction_atomic_witness :
    ([rowA] : List EventRow) = [rowA] ∧ ∃ k e d2,
      ([devA] : List DomainEvent)[k]? = some e ∧
      uniqueIdOracle ([rowA] ++ persistRows testCodecs Generation.first (([devA] : List DomainEvent).take k))
        (mkRow testCodecs ⟨Generation.first.val + k⟩ e) = some d2 ∧
      SqliteRepositoryError.DatabaseError ⟨"UNIQUE constraint failed: events.id"⟩ =
        .DatabaseError d2 :=
  (persist_transaction_atomic testCodecs uniqueIdOracle [rowA] Generation.first [devA]).2
    [rowA] (.DatabaseError ⟨"UNIQUE constraint failed: events.id"⟩) (by rfl)

/-- C6: `get` maps a `None` hydration result — in particular an id with zero
stored rows — to the first-class `NotFoundError`, never to an empty or default
aggregate; `NotFoundError` is a distinct outcome from every storage failure;
and a successful `get` result always comes from a `Some` hydration. -/
theorem get_not_found_exactly_no_state (c : Codecs) (db : List EventRow)
    (pid : ProjectId) :
    (loadRows db pid = [] → SqliteRepository.get c db pid = .error .NotFoundError) ∧
    (SqliteRepository.get c db pid = .error .NotFoundError ↔
      ∃ evs, decodeEvents c (loadRows db pid) = .ok evs ∧
        Project.hydrate evs = .ok none) ∧
    (∀ d : DieselError,
      (SqliteRepositoryError.NotFoundError : SqliteRepositoryError) ≠ .DatabaseError d) ∧
    (∀ p : Project, SqliteRepository.get c db pid = .ok p →
      ∃ evs, decodeEvents c (loadRows db pid) = .ok evs ∧
        Project.hydrate evs = .ok (some p)) := by
  refine ⟨?_, ⟨?_, ?_⟩, ?_, ?_⟩
  · intro h
    rw [SqliteRepository.get, h]
    rfl
  · intro h
    rw [SqliteRepository.get] at h
    split at h
    · simp at h
    · rename_i evs hdec
      split at h
      · simp at h
      · rename_i hhyd
        exact ⟨evs, hdec, hhyd⟩
      · simp at h
  · rintro ⟨evs, hdec, hhyd⟩
    simp [SqliteRepository.get, hdec, hhyd]
  · intro d h
    exact SqliteRepositoryError.noConfusion h
  · intro p h
    rw [SqliteRepository.get] at h
    split at h
    · simp at h
    · rename_i evs hdec
      split at h
      · simp at h
      · simp at h
      · rename_i q hhyd
        injection h with h1
        rw [← h1]
        exact ⟨evs, hdec, hhyd⟩

/-- C6 witness: an id with zero stored rows yields `NotFoundError`. -/
theorem get_not_found_exactly_no_state_witness :
    SqliteRepository.get testCodecs [] pidFix = .error .NotFoundError :=
  (get_not_found_exactly_no_state testCodecs [] pidFix).1 (by rfl)

/-- Helper: the decode pipeline returns the decode error of the first
malformed row and looks no further. -/
theorem decodeEvents_first_error (c : Codecs) :
    ∀ (good : List EventRow) (bad : EventRow) (rest : List EventRow)
      (e : DomainEventError),
      (∀ r ∈ good, ∃ dev, DomainEvent.from_event c r = .ok dev) →
      DomainEvent.from_event c bad = .error e →
      decodeEvents c (good ++ bad :: rest) = .error e := by
  intro good
  induction good with
  | nil =>
    intro bad rest e hgood hbad
    rw [List.nil_append, decodeEvents, hbad]
  | cons r tail ih =>
    intro bad rest e hgood hbad
    obtain ⟨dev, hr⟩ := hgood r (by simp)
    rw [List.cons_append, decodeEvents, hr,
      ih bad rest e (fun r2 h2 => hgood r2 (by simp [h2])) hbad]

/-- C7: if any loaded row is malformed — its decode under `from_event` fails
on the uuid, the timestamp or the payload — then `get` fails with that decode
error wrapped as `DomainEventError`; the row is not skipped and no aggregate
is returned. -/
theorem get_decode_error_not_skipped (c : Codecs) (db : List EventRow)
    (pid : ProjectId) (good : List EventRow) (bad : EventRow)
    (rest : List EventRow) (e : DomainEventError) :
    loadRows db pid = good ++ bad :: rest →
    (∀ r ∈ good, ∃ dev, DomainEvent.from_event c r = .ok dev) →
    DomainEvent.from_event c bad = .error e →
    SqliteRepository.get c db pid = .error (.DomainEventError e) := by
  intro hload hgood hbad
  rw [SqliteRepository.get, hload, decodeEvents_first_error c good bad rest e hgood hbad]

/-- C7 witness: a stored row whose `data` does not deserialize makes `get`
fail with the JSON decode error. -/
theorem get_decode_error_not_skipped_witness :
    SqliteRepository.get testCodecs [rowBad] pidFix =
      .error (.DomainEventError (.JsonParseError ⟨"notjson"⟩)) :=
  get_decode_error_not_skipped testCodecs [rowBad] pidFix [] rowBad []
    (.JsonParseError ⟨"notjson"⟩) (by rfl) (by simp) (by rfl)

/-- C3 evidence: the query of `get` has no `ORDER BY`, so rows come back in
physical insertion order, not ascending generation order, and the hydrated
result depends on the physical order: with the generation-1 row physically
before the generation-0 row, `get` replays them as stored and its result
differs from the permuted database's. -/
theorem get_replays_physical_not_generation_order :
    loadRows [rowB, rowA] pidFix = [rowB, rowA] ∧
    rowB.generation = 1 ∧ rowA.generation = 0 ∧
    decodeEvents testCodecs (loadRows [rowB, rowA] pidFix) =
      .ok [ProjectEvent.Created pidFix ("b"), ProjectEvent.Created pidFix ("a")] ∧
    SqliteRepository.get testCodecs [rowB, rowA] pidFix ≠
      SqliteRepository.get testCodecs [rowA, rowB] pidFix :=
  ⟨rfl, rfl, rfl, rfl, by decide⟩
